import Mathlib

/-!
Verification development for the observatory seeding pipeline
(`observatory_seeder/`): a shallow embedding in Lean 4 of the pure core of
`url_validator.py`, `discover.py`, `validate.py`, `run.py`, `download.py`
and `normalize_checkpoint.py`, together with theorems settling the frozen
claims about those modules.

Modelling conventions:
* Python floats are modelled as exact rationals (`Q` below, a num/den pair
  kept normalized by the smart constructor `mkQ`).  All values handled by
  the pipeline are short decimals, for which exact-rational arithmetic
  coincides with the intended float semantics.
* Network traffic is an explicit oracle argument (`FetchOutcome`,
  `HttpAttempt`): the function under test receives the response the Python
  code would have received from `requests`.
* `time.sleep` and wall-clock reads are modelled by an event trace and a
  logical clock that advances exactly by the amount slept.
* Strings are processed on their underlying `List Char`; the regex patterns
  of `SOFT_404_PATTERNS` are compiled by hand into a token representation
  (`RTok`) with Python `re` semantics (leftmost match, alternatives tried
  in order, greedy `\s+`, `\b` word boundaries).  Character classes `\s`
  and `\w` are modelled over their ASCII content, which is exact for every
  input considered here.
-/

namespace ObservatorySeeder

/-! ### Exact rationals standing in for Python floats -/

/-- Exact rational number used to model a Python float: numerator and
positive denominator, kept normalized (coprime) by `mkQ`. -/
structure Q where
  num : Int
  den : Nat
deriving DecidableEq, Repr

/-- Smart constructor normalizing a fraction by the gcd of its parts. -/
def mkQ (n : Int) (d : Nat) : Q :=
  let g := Nat.gcd n.natAbs d
  if g = 0 then ⟨n, d⟩ else ⟨n.tdiv g, d / g⟩

/-- Embed an integer. -/
def qInt (n : Int) : Q := ⟨n, 1⟩

/-- Less-or-equal on rationals by cross multiplication. -/
def qle (a b : Q) : Bool := decide (a.num * (b.den : Int) ≤ b.num * (a.den : Int))

/-- Strictly-less on rationals by cross multiplication. -/
def qlt (a b : Q) : Bool := decide (a.num * (b.den : Int) < b.num * (a.den : Int))

/-- Product of two rationals (normalized). -/
def qmul (a b : Q) : Q := mkQ (a.num * b.num) (a.den * b.den)

/-- Absolute value, Python `abs`. -/
def qabs (a : Q) : Q := ⟨(a.num.natAbs : Int), a.den⟩

/-- Python `int(v * 10^k)`: scale by a power of ten and truncate toward
zero (`Int.tdiv` is t-division, matching Python `int()` on floats). -/
def qtruncToInt (v : Q) (k : Nat) : Int :=
  Int.tdiv (v.num * ((10 : Int) ^ k)) (v.den : Int)

/-- Python `int(v * 10^k) / 10^k`, the body of `_truncate_coord`. -/
def qtruncDec (v : Q) (k : Nat) : Q := mkQ (qtruncToInt v k) ((10 : Nat) ^ k)

/-- Round `v * 10^k` to the nearest integer, ties to even — the rounding
used by Python's built-in `round`. -/
def qroundToInt (v : Q) (k : Nat) : Int :=
  let n := v.num * ((10 : Int) ^ k)
  let d := (v.den : Int)
  let q := Int.ediv n d
  let r := n - q * d
  if 2 * r < d then q
  else if d < 2 * r then q + 1
  else if q % 2 = 0 then q else q + 1

/-- Python `round(v, k)` on exact decimals. -/
def qroundDec (v : Q) (k : Nat) : Q := mkQ (qroundToInt v k) ((10 : Nat) ^ k)

/-! ### Character and string helpers -/

/-- Characters of a string literal. -/
def s2c (s : String) : List Char := s.data

/-- Lowercase every character (Python `str.lower`, ASCII fragment). -/
def lowerChars (cs : List Char) : List Char := cs.map Char.toLower

/-- Lowercase a string. -/
def lowerStr (s : String) : String := String.mk (lowerChars s.data)

/-- Membership in the regex class `\s` (ASCII content). -/
def isWsChar (c : Char) : Bool :=
  c == ' ' || c == '\t' || c == '\n' || c == '\r' || c == '\x0b' || c == '\x0c'

/-- Membership in the regex class `\w` (ASCII content), used for `\b`. -/
def isWordChar (c : Char) : Bool := c.isAlpha || c.isDigit || c == '_'

/-- Lowercase ASCII letter, the `a-z` of the slug character classes. -/
def isLowerAZ (c : Char) : Bool := 'a' ≤ c && c ≤ 'z'

/-- ASCII digit, the `0-9` of the slug character classes. -/
def isDigit09 (c : Char) : Bool := '0' ≤ c && c ≤ '9'

/-- Consume the literal `l` from the front of `cs`, returning the rest. -/
def eatLit : List Char → List Char → Option (List Char)
  | [], cs => some cs
  | _ :: _, [] => none
  | l :: ls, c :: cs => if l = c then eatLit ls cs else none

/-- Python `needle in hay` for strings. -/
def strHasSub (needle : List Char) : List Char → Bool
  | [] => needle.isEmpty
  | c :: rest => (eatLit needle (c :: rest)).isSome || strHasSub needle rest

/-- Strip whitespace from both ends (Python `str.strip()`). -/
def stripWs (l : List Char) : List Char :=
  ((l.dropWhile isWsChar).reverse.dropWhile isWsChar).reverse

/-- Lexicographic comparison of char lists by code point, the order Python
uses when comparing the strings produced by a sort key. -/
def listLe : List Char → List Char → Bool
  | [], _ => true
  | _ :: _, [] => false
  | a :: as, b :: bs => if a < b then true else if b < a then false else listLe as bs

/-- Join strings with a separator (used to render Python list literals). -/
def joinSep (sep : String) : List String → String
  | [] => ""
  | [s] => s
  | s :: rest => s ++ sep ++ joinSep sep rest

/-- ASCII apostrophe, used when rendering Python `repr` of strings. -/
def quoteCh : Char := Char.ofNat 39

/-- Python `repr` of a list of strings, e.g. `['404', 'not found']`
(escaping of exotic characters is not modelled). -/
def pyReprStrList (l : List String) : String :=
  "[" ++ joinSep ", "
    (l.map (fun s => String.mk (quoteCh :: s.data ++ [quoteCh]))) ++ "]"

/-! ### The soft-404 regex of `url_validator.py`

`SOFT_404_REGEX = re.compile('|'.join(SOFT_404_PATTERNS), re.IGNORECASE)`.
Each alternative is a concatenation of literals, `\s+`, small character
classes and `\b` anchors; `RTok` represents exactly those constructs.
All searched text is lowercased first by the caller (as in the source),
so case-insensitivity needs no extra handling. -/

/-- One token of a compiled soft-404 pattern. -/
inductive RTok where
  | lit (cs : List Char)
  | ws
  | cls (cs : List Char)
  | wb

/-- Match a token sequence at the start of `cs`; `prev` is the character
just before the match position (for `\b`).  Returns the number of
characters consumed.  `\s+` is greedy; since every following token starts
with a non-whitespace character, the maximal run is the unique parse. -/
def matchToks (prev : Option Char) : List RTok → List Char → Option Nat
  | [], _ => some 0
  | .lit l :: ts, cs =>
    match eatLit l cs with
    | none => none
    | some rest =>
      let prev' := match l.getLast? with | some c => some c | none => prev
      (matchToks prev' ts rest).map (· + l.length)
  | .ws :: ts, cs =>
    let run := cs.takeWhile isWsChar
    if run.isEmpty then none
    else (matchToks (some (run.getLastD ' ')) ts (cs.drop run.length)).map (· + run.length)
  | .cls cl :: ts, cs =>
    match cs with
    | [] => none
    | c :: rest => if cl.contains c then (matchToks (some c) ts rest).map (· + 1) else none
  | .wb :: ts, cs =>
    let lw := match prev with | none => false | some c => isWordChar c
    let rw := match cs with | [] => false | c :: _ => isWordChar c
    if lw != rw then matchToks prev ts cs else none

/-- The compiled `SOFT_404_PATTERNS`, in source order. -/
def SOFT_404_PATTERNS : List (List RTok) := [
  [.wb, .lit (s2c "404"), .wb],
  [.lit (s2c "not"), .ws, .lit (s2c "found")],
  [.lit (s2c "page"), .ws, .lit (s2c "not"), .ws, .lit (s2c "found")],
  [.lit (s2c "error"), .ws, .lit (s2c "page")],
  [.lit (s2c "does"), .ws, .lit (s2c "not"), .ws, .lit (s2c "exist")],
  [.lit (s2c "no"), .ws, .lit (s2c "longer"), .ws, .lit (s2c "available")],
  [.lit (s2c "page"), .ws, .lit (s2c "missing")],
  [.lit (s2c "page"), .ws, .lit (s2c "unavailable")],
  [.lit (s2c "content"), .ws, .lit (s2c "not"), .ws, .lit (s2c "found")],
  [.lit (s2c "resource"), .ws, .lit (s2c "not"), .ws, .lit (s2c "found")],
  [.lit (s2c "p"), .cls (s2c "aá"), .lit (s2c "gina"), .ws, .lit (s2c "no"), .ws,
    .lit (s2c "encontrada")],
  [.lit (s2c "no"), .ws, .lit (s2c "existe")],
  [.lit (s2c "error"), .ws, .lit (s2c "404")],
  [.lit (s2c "no"), .ws, .lit (s2c "disponible")],
  [.lit (s2c "seite"), .ws, .lit (s2c "nicht"), .ws, .lit (s2c "gefunden")],
  [.lit (s2c "fehler"), .ws, .lit (s2c "404")],
  [.lit (s2c "page"), .ws, .lit (s2c "introuvable")],
  [.lit (s2c "page"), .ws, .lit (s2c "non"), .ws, .lit (s2c "trouv"), .cls (s2c "ée"),
    .lit (s2c "e")],
  [.lit (s2c "under"), .ws, .lit (s2c "construction")],
  [.lit (s2c "coming"), .ws, .lit (s2c "soon")],
  [.lit (s2c "domain"), .ws, .lit (s2c "for"), .ws, .lit (s2c "sale")],
  [.lit (s2c "parked"), .ws, .lit (s2c "domain")],
  [.lit (s2c "this"), .ws, .lit (s2c "domain")],
  [.lit (s2c "buy"), .ws, .lit (s2c "this"), .ws, .lit (s2c "domain")],
  [.lit (s2c "website"), .ws, .lit (s2c "expired")],
  [.lit (s2c "account"), .ws, .lit (s2c "suspended")]]

/-- Try the alternation at one position: the first alternative (in source
order) that matches wins, as in Python `re`. -/
def regexMatchAt (prev : Option Char) (cs : List Char) : Option Nat :=
  SOFT_404_PATTERNS.findSome? (fun p => matchToks prev p cs)

/-- Scan of `SOFT_404_REGEX.findall`: repeatedly take the leftmost match
and resume after its end.  `fuel` bounds the recursion (every match
consumes at least one character, so `length + 1` suffices). -/
def soft404FindAllAux : Nat → Option Char → List Char → List (List Char)
  | 0, _, _ => []
  | _ + 1, _, [] => []
  | fuel + 1, prev, c :: rest =>
    match regexMatchAt prev (c :: rest) with
    | some n =>
      if n = 0 then soft404FindAllAux fuel (some c) rest
      else
        let m := (c :: rest).take n
        m :: soft404FindAllAux fuel (some (m.getLastD c)) ((c :: rest).drop n)
    | none => soft404FindAllAux fuel (some c) rest

/-- Model of `SOFT_404_REGEX.findall(text)`. -/
def soft404FindAll (cs : List Char) : List (List Char) :=
  soft404FindAllAux (cs.length + 1) none cs

/-- Model of `SOFT_404_REGEX.search(text)`: it succeeds iff some match exists, i.e. iff
`findall` is nonempty. -/
def soft404Search (cs : List Char) : Bool := !(soft404FindAll cs).isEmpty

/-- Match `re.search(r'<title[^>]*>([^<]+)</title>', content)` at one
position; returns the captured group.  The greedy runs are the unique
parses because the characters excluded by each class are exactly the ones
the following literal starts with. -/
def titleMatchAt (cs : List Char) : Option (List Char) :=
  match eatLit (s2c "<title") cs with
  | none => none
  | some rest =>
    let attrs := rest.takeWhile (fun c => c != '>')
    match rest.drop attrs.length with
    | '>' :: rest2 =>
      let grp := rest2.takeWhile (fun c => c != '<')
      if grp.isEmpty then none
      else
        match eatLit (s2c "</title>") (rest2.drop grp.length) with
        | some _ => some grp
        | none => none
    | _ => none

/-- Leftmost `<title>` capture in the content, as `re.search` finds it. -/
def findTitle : List Char → Option (List Char)
  | [] => none
  | c :: rest =>
    match titleMatchAt (c :: rest) with
    | some g => some g
    | none => findTitle rest

/-! ### `validate_website_url` (url_validator.py, lines 74-190) -/

/-- Minimum content length to consider a page valid (bytes). -/
def MIN_CONTENT_LENGTH : Nat := 1000

/-- Outcome of the single `requests.get` issued by `validate_website_url`:
either one of the caught exception classes, or a response (status code,
final URL after redirects, body).  The body is one string; its byte length
models `len(response.content)` and its characters model `response.text`. -/
inductive FetchOutcome where
  | timeout
  | sslError
  | connError
  | reqError (msg : String)
  | success (status : Nat) (finalUrl : String) (body : String)

/-- Result dictionary of `validate_website_url`. -/
structure UrlValidation where
  valid : Bool
  status_code : Option Nat
  reason : String
  final_url : Option String
  is_soft_404 : Bool
  content_length : Nat
deriving DecidableEq, Repr

/-- Shallow embedding of `validate_website_url(url)`, given the outcome
`fetch` of its HTTP GET.  The `https://` scheme-prepending of the source
only affects which URL is requested (part of the oracle here), not the
returned dictionary.  Python's early-`return` ladder is rendered as nested
conditionals; the "short page" inner `if` falls through to the same
continuation as its parent, so it appears as a conjunction. -/
def validate_website_url (url : String) (fetch : FetchOutcome) : UrlValidation :=
  let base : UrlValidation :=
    { valid := false
      status_code := none
      reason := ""
      final_url := none
      is_soft_404 := false
      content_length := 0 }
  if url = "" then { base with reason := "No URL provided" }
  else
    match fetch with
    | .timeout => { base with reason := "Request timeout" }
    | .sslError => { base with reason := "SSL certificate error" }
    | .connError => { base with reason := "Connection failed" }
    | .reqError msg =>
      { base with reason := "Request error: " ++ String.mk (msg.data.take 50) }
    | .success status finalUrl body =>
      let result :=
        { base with
          status_code := some status
          final_url := some finalUrl
          content_length := body.utf8ByteSize }
      if 400 ≤ status then
        { result with reason := "HTTP " ++ toString status }
      else if status = 301 ∨ status = 302 ∨ status = 303 ∨ status = 307 ∨ status = 308 then
        { result with reason := "Redirect to " ++ finalUrl }
      else
        let content := lowerChars body.data
        if result.content_length < MIN_CONTENT_LENGTH ∧ soft404Search content = true then
          { result with
            is_soft_404 := true
            reason := "Soft 404 detected (short page with error content)" }
        else
          let content_to_check := content.take 5000
          if soft404Search content_to_check = true ∧
              (2 ≤ (soft404FindAll content_to_check).length ∨
                strHasSub (s2c "404") content_to_check = true) then
            { result with
              is_soft_404 := true
              reason := "Soft 404 detected (found: " ++
                pyReprStrList (((soft404FindAll content_to_check).take 3).map String.mk) ++ ")" }
          else
            match findTitle content with
            | some title =>
              if soft404Search title = true then
                { result with
                  is_soft_404 := true
                  reason := "Error in page title: " ++ String.mk (title.take 50) }
              else { result with valid := true, reason := "Valid" }
            | none => { result with valid := true, reason := "Valid" }

/-! ### `normalize_elevation` (discover.py, lines 19-61) -/

/-- Feet-to-meters factor, `FEET_TO_METERS = 0.3048`. -/
def FEET_TO_METERS : Q := mkQ 3048 10000

/-- Lower bound of plausible elevations (Dead Sea area). -/
def MIN_VALID_ELEVATION : Q := qInt (-500)

/-- Upper bound of plausible elevations (higher than Everest = bad data). -/
def MAX_VALID_ELEVATION : Q := qInt 9000

/-- Threshold above which a raw value is suspected to be in feet. -/
def FEET_THRESHOLD : Q := qInt 9000

/-- Rendering of a raw value inside the `invalid_value_<x>` note.  Python
interpolates the float's `repr`; this model renders the exact fraction,
which is only a presentation difference inside an opaque note string. -/
def qNoteStr (v : Q) : String :=
  toString v.num ++ (if v.den = 1 then "" else "/" ++ toString v.den)

/-- Shallow embedding of `normalize_elevation(raw_elevation, name)`.
The source's guarded early returns are flattened into one conditional
chain; a guard whose inner range check fails falls through to the next
guard exactly as in the source (the guards `raw > 9000` and `raw < -500`
are mutually exclusive, so the flattening is behaviour-preserving). -/
def normalize_elevation (raw_elevation : Option Q) (_name : String := "") :
    Option Q × String :=
  match raw_elevation with
  | none => (none, "no_elevation")
  | some raw =>
    if qle MIN_VALID_ELEVATION raw && qle raw MAX_VALID_ELEVATION then
      (some raw, "meters")
    else if qlt FEET_THRESHOLD raw &&
        (qle MIN_VALID_ELEVATION (qmul raw FEET_TO_METERS) &&
         qle (qmul raw FEET_TO_METERS) MAX_VALID_ELEVATION) then
      (some (qroundDec (qmul raw FEET_TO_METERS) 1), "converted_from_feet")
    else if qlt raw MIN_VALID_ELEVATION &&
        (qle MIN_VALID_ELEVATION (qabs raw) && qle (qabs raw) MAX_VALID_ELEVATION) then
      (some (qabs raw), "corrected_sign")
    else
      (none, "invalid_value_" ++ qNoteStr raw)

/-! ### `Observatory.slug` (discover.py, lines 103-133) -/

/-- Characters kept by `re.sub(r'[^a-z0-9\s-]', '', slug)`. -/
def isSlugKeep (c : Char) : Bool := isLowerAZ c || isDigit09 c || isWsChar c || c == '-'

/-- Characters of the class `[\s_]`. -/
def isWsOrUnderscore (c : Char) : Bool := isWsChar c || c == '_'

/-- Model of `re.sub(r'[\s_]+', '-', l)`: every maximal run of whitespace or
underscores becomes a single dash.  `fuel` bounds the recursion; each step
consumes at least one character, so the list length suffices. -/
def subWsRunsToDash : Nat → List Char → List Char
  | 0, l => l
  | _ + 1, [] => []
  | fuel + 1, c :: rest =>
    if isWsOrUnderscore c then '-' :: subWsRunsToDash fuel (rest.dropWhile isWsOrUnderscore)
    else c :: subWsRunsToDash fuel rest

/-- Model of `re.sub(r'-+', '-', l)`: collapse dash runs to one dash. -/
def collapseDashes : Nat → List Char → List Char
  | 0, l => l
  | _ + 1, [] => []
  | fuel + 1, c :: rest =>
    if c == '-' then '-' :: collapseDashes fuel (rest.dropWhile (· == '-'))
    else c :: collapseDashes fuel rest

/-- Python `str.strip('-')`. -/
def stripDashes (l : List Char) : List Char :=
  ((l.dropWhile (· == '-')).reverse.dropWhile (· == '-')).reverse

/-- Body of the `Observatory.slug` property: lowercase the name, drop
characters outside `[a-z0-9\s-]`, turn `[\s_]+` runs into dashes, collapse
dash runs, strip outer dashes, truncate to 50 characters, then append the
lowercased `wikidata_id` after a dash when it is nonempty. -/
def observatorySlug (name wikidata_id : String) : String :=
  let s0 := lowerChars name.data
  let s1 := s0.filter isSlugKeep
  let s2 := subWsRunsToDash s1.length s1
  let s3 := collapseDashes s2.length s2
  let s4 := (stripDashes s3).take 50
  let wikidata_suffix := lowerChars wikidata_id.data
  if wikidata_suffix.isEmpty then String.mk s4
  else String.mk (s4 ++ ('-' :: wikidata_suffix))

/-- In-memory discovery record (discover.py `@dataclass Observatory`). -/
structure Observatory where
  wikidata_id : String
  name : String
  latitude : Q
  longitude : Q
  elevation : Option Q
  country : String
  image_url : Option String
  website : Option String
  phone : Option String
  elevation_note : String
deriving DecidableEq, Repr

/-- The `slug` property of an `Observatory`. -/
def Observatory.slug (o : Observatory) : String :=
  observatorySlug o.name o.wikidata_id

/-! ### `validate.py`: dedupe key and `merge_validated_observatories` -/

/-- Durable record of `validated_observatories.json` (the fields the merge
step reads; further payload fields would behave identically). -/
structure VEntry where
  name : String
  latitude : Q
  longitude : Q
  image_url : Option String
deriving DecidableEq, Repr

/-- Source `_truncate_coord(val, decimals)`: `int(val * 10^decimals) / 10^decimals`. -/
def _truncate_coord (val : Q) (decimals : Nat := 3) : Q := qtruncDec val decimals

/-- Model of `re.sub(r'\s+', ' ', l)`: whitespace runs become one space. -/
def subWsRunsToSpace : Nat → List Char → List Char
  | 0, l => l
  | _ + 1, [] => []
  | fuel + 1, c :: rest =>
    if isWsChar c then ' ' :: subWsRunsToSpace fuel (rest.dropWhile isWsChar)
    else c :: subWsRunsToSpace fuel rest

/-- Source `_normalize_name(name)`: lowercase, strip, drop characters outside
`[a-z0-9\s]`, collapse whitespace runs to single spaces. -/
def _normalize_name (name : String) : String :=
  let s0 := stripWs (lowerChars name.data)
  let s1 := s0.filter (fun c => isLowerAZ c || isDigit09 c || isWsChar c)
  String.mk (subWsRunsToSpace s1.length s1)

/-- Source `_make_dedupe_key(obs)`: 3-decimal-truncated coordinates plus the
normalized name.  (The Python `obs.get(..., default)` lookups are total
here because the record fields always exist.) -/
def _make_dedupe_key (o : VEntry) : Q × Q × String :=
  (_truncate_coord o.latitude 3, _truncate_coord o.longitude 3, _normalize_name o.name)

/-- Sort condition for the final `existing.sort(key=lambda x: x.get('name', '').lower())`. -/
def byNameLe (a b : VEntry) : Bool :=
  listLe (lowerChars a.name.data) (lowerChars b.name.data)

/-- Stable insertion into a list sorted by `byNameLe`: the new element goes
before the first strictly-greater element and after equal ones it follows
in the original order. -/
def insertByName (x : VEntry) : List VEntry → List VEntry
  | [] => [x]
  | y :: rest => if byNameLe x y then x :: y :: rest else y :: insertByName x rest

/-- Stable sort by lowercased name.  Python's `list.sort` is a stable sort
with respect to the same key, and a stable sort's output is determined by
the key order alone, so insertion sort is an exact model of it. -/
def sortByName : List VEntry → List VEntry
  | [] => []
  | x :: rest => insertByName x (sortByName rest)

/-- The merge loop of `merge_validated_observatories`: walk the new list,
appending entries whose dedupe key is not yet in the key set and counting
them.  The key set is modelled as the list of keys seen so far. -/
def mergeLoop (keys : List (Q × Q × String)) (acc : List VEntry) (added : Nat) :
    List VEntry → List VEntry × Nat
  | [] => (acc, added)
  | o :: rest =>
    if _make_dedupe_key o ∈ keys then mergeLoop keys acc added rest
    else mergeLoop (_make_dedupe_key o :: keys) (acc ++ [o]) (added + 1) rest

/-- Shallow embedding of `merge_validated_observatories(new_observatories)`:
`existing` is the list read from `validated_observatories.json` (empty when
the file is missing); the returned triple is (observatory list written
back, `total_count`, `new_count`).  The JSON envelope (version, source,
timestamp) carries no claim-relevant content and is not modelled. -/
def merge_validated_observatories (existing new_observatories : List VEntry) :
    List VEntry × Nat × Nat :=
  let (lst, added) := mergeLoop (existing.map _make_dedupe_key) existing 0 new_observatories
  let sorted := sortByName lst
  (sorted, sorted.length, added)

/-! ### `run_dedupe` (run.py, lines 105-172) -/

/-- Entry of `discovered.json` (the fields `run_dedupe` reads). -/
structure DEntry where
  wikidata_id : String
  slug : String
  name : String
  latitude : Q
  longitude : Q
  image_url : Option String
deriving DecidableEq, Repr

/-- The 2-decimal rounded coordinate key built from an existing output
entry (`(round(obs.get('latitude', 0), 2), round(obs.get('longitude', 0), 2))`). -/
def vKey2 (o : VEntry) : Q × Q := (qroundDec o.latitude 2, qroundDec o.longitude 2)

/-- The same 2-decimal rounded key for a discovered entry
(`(round(obs['latitude'], 2), round(obs['longitude'], 2))`). -/
def dKey2 (o : DEntry) : Q × Q := (qroundDec o.latitude 2, qroundDec o.longitude 2)

/-- The filter loop of `run_dedupe`: drop entries whose rounded key is in
the existing set or was already seen in this batch, recording duplicate
names; keep the rest in order. -/
def dedupeLoop (existing_set : List (Q × Q)) (seen : List (Q × Q))
    (news : List DEntry) (dups : List String) :
    List DEntry → List DEntry × List String
  | [] => (news, dups)
  | o :: rest =>
    if dKey2 o ∈ existing_set then
      dedupeLoop existing_set seen news (dups ++ [o.name]) rest
    else if dKey2 o ∈ seen then
      dedupeLoop existing_set seen news (dups ++ [o.name ++ " (duplicate coords in batch)"]) rest
    else
      dedupeLoop existing_set (dKey2 o :: seen) (news ++ [o]) dups rest

/-- Shallow embedding of `run_dedupe()`: `discovered` is the content of
`discovered.json`, `existing` the observatory list of the output file
(empty when absent).  Returns (surviving entries — which are also what is
written back to `discovered.json` — and the logged duplicate names). -/
def run_dedupe (discovered : List DEntry) (existing : List VEntry) :
    List DEntry × List String :=
  let existing_set := existing.map vKey2
  dedupeLoop existing_set [] [] [] discovered

/-! ### `download_image` and the global cooldown (download.py, lines 33-134)

The module-level `_rate_limit_state` dictionary and the wall clock are
threaded explicitly.  `time.time()` reads the `now` field; `time.sleep(t)`
advances `now` by `t`.  Every sleep of interest is also recorded as an
event so that temporal claims are statements about the event trace. -/

/-- The module-level `_rate_limit_state`, plus the model clock. -/
structure RateLimitState where
  downloads_since_break : Nat
  last_429_time : Nat
  global_cooldown_until : Nat
  now : Nat
deriving DecidableEq, Repr

/-- Sleep events observable in a `download_image` run. -/
inductive DlEvent where
  | waitCooldown (seconds : Nat)
  | triggerCooldown
  | backoff (seconds : Nat)
deriving DecidableEq, Repr

/-- Constant `GLOBAL_COOLDOWN_SECONDS = 180`. -/
def GLOBAL_COOLDOWN_SECONDS : Nat := 180

/-- Source `_check_global_cooldown()`: wait out a pending cooldown. -/
def _check_global_cooldown (s : RateLimitState) : RateLimitState × List DlEvent :=
  if s.now < s.global_cooldown_until then
    ({ s with now := s.global_cooldown_until },
     [.waitCooldown (s.global_cooldown_until - s.now)])
  else (s, [])

/-- Source `_trigger_global_cooldown()`: record the 429 time, set the cooldown
deadline 180 s ahead, and sleep those 180 s. -/
def _trigger_global_cooldown (s : RateLimitState) : RateLimitState × List DlEvent :=
  let s1 := { s with
    last_429_time := s.now
    global_cooldown_until := s.now + GLOBAL_COOLDOWN_SECONDS }
  ({ s1 with now := s1.now + GLOBAL_COOLDOWN_SECONDS }, [.triggerCooldown])

/-- Outcome of one `requests.get` attempt inside `download_image`, after
`raise_for_status`: the body on success, the status of an `HTTPError`
(status ≥ 400), or any other `RequestException`. -/
inductive HttpAttempt where
  | success (body : String)
  | httpError (status : Nat)
  | requestError
deriving DecidableEq

/-- The retry loop `for attempt in range(max_retries + 1)` of
`download_image`.  `resp attempt` is the outcome of the attempt-th GET;
`fuel` counts the remaining loop iterations (initially `max_retries + 1`),
so `attempt + fuel = max_retries + 1` at every call. -/
def dlLoop (resp : Nat → HttpAttempt) (max_retries : Nat) :
    Nat → Nat → RateLimitState → Option String × RateLimitState × List DlEvent
  | _, 0, s => (none, s, [])
  | attempt, fuel + 1, s =>
    match resp attempt with
    | .success body => (some body, s, [])
    | .requestError => (none, s, [])
    | .httpError status =>
      if status = 429 then
        if attempt = 0 then
          let (s1, e1) := _trigger_global_cooldown s
          let (r, s2, e2) := dlLoop resp max_retries (attempt + 1) fuel s1
          (r, s2, e1 ++ e2)
        else if attempt < max_retries then
          let wait_time := 30 * (attempt + 1)
          let (r, s2, e2) :=
            dlLoop resp max_retries (attempt + 1) fuel { s with now := s.now + wait_time }
          (r, s2, .backoff wait_time :: e2)
        else (none, s, [])
      else (none, s, [])

/-- Shallow embedding of `download_image(url, max_retries)`: first waits
out any pending global cooldown, then runs the retry loop.  Returns the
downloaded bytes (if any), the final rate-limit state and the sleep-event
trace of the call. -/
def download_image (resp : Nat → HttpAttempt) (max_retries : Nat := 3)
    (s : RateLimitState) : Option String × RateLimitState × List DlEvent :=
  let (s1, e1) := _check_global_cooldown s
  let (r, s2, e2) := dlLoop resp max_retries 0 (max_retries + 1) s1
  (r, s2, e1 ++ e2)

/-- A sequence of `download_image` calls within one process, threading the
module-level state and concatenating the event traces. -/
def downloadCalls (calls : List (Nat → HttpAttempt)) (max_retries : Nat)
    (s : RateLimitState) : RateLimitState × List DlEvent :=
  match calls with
  | [] => (s, [])
  | c :: rest =>
    let (_, s1, e1) := download_image c max_retries s
    let (s2, e2) := downloadCalls rest max_retries s1
    (s2, e1 ++ e2)

/-- Number of global-cooldown triggers in an event trace. -/
def triggerCount (es : List DlEvent) : Nat :=
  es.countP (fun e => match e with | .triggerCooldown => true | _ => false)

/-- Whether a call's first attempt (attempt 0) observes an HTTP 429. -/
def firstAttempt429 (resp : Nat → HttpAttempt) : Bool :=
  match resp 0 with
  | .httpError status => status == 429
  | _ => false

/-- Fresh process state (module import time). -/
def initialRateLimitState : RateLimitState :=
  { downloads_since_break := 0, last_429_time := 0, global_cooldown_until := 0, now := 0 }

/-! ### `normalize_checkpoint` (normalize_checkpoint.py, lines 16-88)

JSON values are a mutual inductive family (`JVal`/`JArr`/`JObj`) because
Lean 4.14 does not support recursion through `List` nesting.  Object keys
are full `JVal`s: the output dictionaries are keyed by whatever value the
`slug` field holds.  JSON numbers are modelled as integers — only their
truthiness and equality with `0`/`1` matter to this function.  Exceptions
are modelled by `Except`: `ValueError` is the explicit `raise`;
`AttributeError` is what Python raises when `.get` is called on a
non-dict (a non-object list item or a non-object `type_metadata`). -/

mutual

/-- A JSON/Python value as handled by `normalize_checkpoint`. -/
inductive JVal where
  | null
  | bool (b : Bool)
  | num (n : Int)
  | str (s : String)
  | arr (elems : JArr)
  | obj (fields : JObj)

/-- A JSON array. -/
inductive JArr where
  | nil
  | cons (hd : JVal) (tl : JArr)

/-- A JSON object / Python dict: insertion-ordered key-value pairs. -/
inductive JObj where
  | nil
  | cons (key : JVal) (val : JVal) (tl : JObj)

end

mutual

/-- Structural equality of JSON values (Python `==` on these shapes). -/
def jeq : JVal → JVal → Bool
  | .null, .null => true
  | .bool a, .bool b => a == b
  | .num a, .num b => a == b
  | .str a, .str b => a == b
  | .arr a, .arr b => jeqArr a b
  | .obj a, .obj b => jeqObj a b
  | _, _ => false

/-- Structural equality of arrays. -/
def jeqArr : JArr → JArr → Bool
  | .nil, .nil => true
  | .cons h t, .cons h2 t2 => jeq h h2 && jeqArr t t2
  | _, _ => false

/-- Structural equality of objects (order-sensitive, which is enough for
the ground values this development evaluates). -/
def jeqObj : JObj → JObj → Bool
  | .nil, .nil => true
  | .cons k v t, .cons k2 v2 t2 => jeq k k2 && jeq v v2 && jeqObj t t2
  | _, _ => false

end

/-- Dictionary lookup: value of the first matching key, if any. -/
def objGet (fields : JObj) (key : String) : Option JVal :=
  match fields with
  | .nil => none
  | .cons k v t => if jeq k (.str key) then some v else objGet t key

/-- Python `item.get(key)`: missing keys give `None`. -/
def pyGet (fields : JObj) (key : String) : JVal := (objGet fields key).getD .null

/-- Python `item.get(key, default)`. -/
def pyGetD (fields : JObj) (key : String) (dflt : JVal) : JVal :=
  (objGet fields key).getD dflt

/-- Python truthiness of a JSON value. -/
def truthy : JVal → Bool
  | .null => false
  | .bool b => b
  | .num n => n != 0
  | .str s => s != ""
  | .arr .nil => false
  | .arr _ => true
  | .obj .nil => false
  | .obj _ => true

/-- Python `a or b` (value-returning). -/
def pyOr (a b : JVal) : JVal := if truthy a then a else b

/-- Python `v == False` (also true for the number 0). -/
def pyEqFalse (v : JVal) : Bool :=
  match v with
  | .bool false => true
  | .num 0 => true
  | _ => false

/-- Python `v == True` (also true for the number 1). -/
def pyEqTrue (v : JVal) : Bool :=
  match v with
  | .bool true => true
  | .num 1 => true
  | _ => false

/-- Dict assignment `d[k] = v`: update in place when an equal key exists,
else append (Python dict insertion order). -/
def dictSet (d : JObj) (k v : JVal) : JObj :=
  match d with
  | .nil => .cons k v .nil
  | .cons k0 v0 t => if jeq k0 k then .cons k0 v t else .cons k0 v0 (dictSet t k v)

mutual

/-- Python `repr` of a JSON value (string escaping not modelled). -/
def jRepr : JVal → String
  | .null => "None"
  | .bool true => "True"
  | .bool false => "False"
  | .num n => toString n
  | .str s => String.mk (quoteCh :: s.data ++ [quoteCh])
  | .arr a => "[" ++ jReprArr a ++ "]"
  | .obj o => "\x7b" ++ jReprObj o ++ "\x7d"

/-- Comma-joined `repr`s of array elements. -/
def jReprArr : JArr → String
  | .nil => ""
  | .cons h .nil => jRepr h
  | .cons h t => jRepr h ++ ", " ++ jReprArr t

/-- Comma-joined `repr`s of object entries. -/
def jReprObj : JObj → String
  | .nil => ""
  | .cons k v .nil => jRepr k ++ ": " ++ jRepr v
  | .cons k v t => jRepr k ++ ": " ++ jRepr v ++ ", " ++ jReprObj t

end

/-- Python `str(v)` (top-level strings render without quotes). -/
def pyStr : JVal → String
  | .str s => s
  | v => jRepr v

/-- Python exception classes surfaced by `normalize_checkpoint`.  Message
payloads carry no claim-relevant content and are not modelled. -/
inductive PyErr where
  | valueError
  | attributeError
deriving DecidableEq, Repr

/-- Canonical checkpoint produced by `normalize_checkpoint`. -/
structure Checkpoint where
  batch_num : Int
  validated : JVal
  websites_found : JVal
  rejection_notes : JVal

/-- Loop body of the old `{"batch_num": N, "results": [...]}` branch. -/
def resultsLoop (validated websites rejections : JObj) :
    JArr → Except PyErr (JObj × JObj × JObj)
  | .nil => .ok (validated, websites, rejections)
  | .cons item rest =>
    match item with
    | .obj it =>
      let slug := pyGet it "slug"
      if truthy slug then
        let final_url0 := pyOr (pyGet it "final_url") (pyOr (pyGet it "image_url") (pyGet it "url"))
        let rejected := pyEqFalse (pyGet it "accepted") || jeq (pyGet it "image_status") (.str "rejected")
        let reason := pyOr (pyGet it "rejection_reason") (pyGet it "reason")
        let rejections1 :=
          if rejected && truthy reason then dictSet rejections slug reason else rejections
        let final_url := if rejected then JVal.null else final_url0
        let validated1 := dictSet validated slug final_url
        match pyGetD it "type_metadata" (.obj .nil) with
        | .obj tm =>
          let w := pyGet tm "website"
          let websites1 := if truthy w then dictSet websites slug w else websites
          resultsLoop validated1 websites1 rejections1 rest
        | _ => .error .attributeError
      else resultsLoop validated websites rejections rest
    | _ => .error .attributeError

/-- Loop body of the bare-array branch. -/
def arrayLoop (validated websites rejections : JObj) :
    JArr → Except PyErr (JObj × JObj × JObj)
  | .nil => .ok (validated, websites, rejections)
  | .cons item rest =>
    match item with
    | .obj it =>
      let slug := pyGet it "slug"
      if truthy slug then
        let is_accepted :=
          jeq (pyGet it "image_status") (.str "accepted") ||
          pyEqTrue (pyGet it "accepted") ||
          (truthy (pyGet it "image_url") &&
            !(strHasSub (s2c "rejected") (pyStr (pyGetD it "image_status" (.str ""))).data))
        let final_url := if is_accepted then pyGet it "image_url" else JVal.null
        let validated1 := dictSet validated slug final_url
        let reason := pyOr (pyGet it "rejection_reason") (pyGet it "reason")
        let rejections1 :=
          if !is_accepted && truthy reason then dictSet rejections slug reason else rejections
        match pyGetD it "type_metadata" (.obj .nil) with
        | .obj tm =>
          let w := pyGet tm "website"
          let websites1 := if truthy w then dictSet websites slug w else websites
          arrayLoop validated1 websites1 rejections1 rest
        | _ => .error .attributeError
      else arrayLoop validated websites rejections rest
    | _ => .error .attributeError

/-- Shallow embedding of `normalize_checkpoint(data, expected_batch_num)`:
detect the shape (canonical dict with a dict-valued `"validated"`, dict
with a list-valued `"results"`, or top-level list) and rewrite into the
canonical structure; raise `ValueError` when no shape matches. -/
def normalize_checkpoint (data : JVal) (expected_batch_num : Int) :
    Except PyErr Checkpoint :=
  match data with
  | .obj fields =>
    match objGet fields "validated" with
    | some (.obj v) =>
      .ok { batch_num := expected_batch_num
            validated := .obj v
            websites_found := pyGetD fields "websites_found" (.obj .nil)
            rejection_notes := pyGetD fields "rejection_notes" (.obj .nil) }
    | _ =>
      match objGet fields "results" with
      | some (.arr items) =>
        (resultsLoop .nil .nil .nil items).map
          (fun t => { batch_num := expected_batch_num
                      validated := .obj t.1
                      websites_found := .obj t.2.1
                      rejection_notes := .obj t.2.2 })
      | _ => .error .valueError
  | .arr items =>
    (arrayLoop .nil .nil .nil items).map
      (fun t => { batch_num := expected_batch_num
                  validated := .obj t.1
                  websites_found := .obj t.2.1
                  rejection_notes := .obj t.2.2 })
  | _ => .error .valueError

/-- Shape 1: dict with a dict-valued `"validated"` key. -/
def isCanonicalShape : JVal → Bool
  | .obj f =>
    match objGet f "validated" with
    | some (.obj _) => true
    | _ => false
  | _ => false

/-- Shape 2: dict with a list-valued `"results"` key. -/
def isResultsShape : JVal → Bool
  | .obj f =>
    match objGet f "results" with
    | some (.arr _) => true
    | _ => false
  | _ => false

/-- Shape 3: top-level list. -/
def isArrayShape : JVal → Bool
  | .arr _ => true
  | _ => false

/-- Any of the three recognized checkpoint shapes. -/
def recognizedShape (d : JVal) : Bool :=
  isCanonicalShape d || isResultsShape d || isArrayShape d

/-- Items of a results/array checkpoint on which the loops cannot raise:
every item is an object, and its `type_metadata`, when present, is an
object. -/
def itemsOk : JArr → Bool
  | .nil => true
  | .cons (.obj it) rest =>
    (match pyGetD it "type_metadata" (.obj .nil) with
     | .obj _ => true
     | _ => false) && itemsOk rest
  | .cons _ _ => false

/-- Well-formedness condition under which a recognized shape normalizes
without raising. -/
def shapeItemsOk : JVal → Bool
  | .obj f =>
    (match objGet f "validated" with
     | some (.obj _) => true
     | _ =>
       match objGet f "results" with
       | some (.arr items) => itemsOk items
       | _ => true)
  | .arr items => itemsOk items
  | _ => true

/-- Whether an `Except` result is the `ValueError` raise. -/
def isValueError {α : Type} : Except PyErr α → Bool
  | .error .valueError => true
  | _ => false

/-- Whether an `Except` result is an `AttributeError`. -/
def isAttributeError {α : Type} : Except PyErr α → Bool
  | .error .attributeError => true
  | _ => false

/-! ### Helper lemmas about the merge step -/

/-- Inserting permutes to consing. -/
theorem insertByName_perm (x : VEntry) (l : List VEntry) :
    (insertByName x l).Perm (x :: l) := by
  induction l with
  | nil => simp [insertByName]
  | cons y rest ih =>
    unfold insertByName
    by_cases h : byNameLe x y = true
    · simp [h]
    · simp only [h, if_false]
      exact (ih.cons y).trans (List.Perm.swap x y rest)

/-- The sort is a permutation of its input. -/
theorem sortByName_perm (l : List VEntry) : (sortByName l).Perm l := by
  induction l with
  | nil => simp [sortByName]
  | cons x rest ih =>
    exact (insertByName_perm x (sortByName rest)).trans (ih.cons x)

/-- The subsequence of `new` entries that the merge appends: an entry is
kept iff its dedupe key is not among the keys already `seen` (the existing
entries' keys together with the keys of entries kept earlier in the same
call). -/
def dedupeNewFilter (seen : List (Q × Q × String)) : List VEntry → List VEntry
  | [] => []
  | o :: rest =>
    if _make_dedupe_key o ∈ seen then dedupeNewFilter seen rest
    else o :: dedupeNewFilter (_make_dedupe_key o :: seen) rest

/-- The merge loop appends exactly the `dedupeNewFilter` entries and
counts them. -/
theorem mergeLoop_spec (l : List VEntry) : ∀ keys acc n,
    mergeLoop keys acc n l =
      (acc ++ dedupeNewFilter keys l, n + (dedupeNewFilter keys l).length) := by
  induction l with
  | nil => intro keys acc n; simp [mergeLoop, dedupeNewFilter]
  | cons o rest ih =>
    intro keys acc n
    by_cases h : _make_dedupe_key o ∈ keys
    · simp [mergeLoop, dedupeNewFilter, h, ih]
    · simp only [mergeLoop, dedupeNewFilter, h, if_false, ih, List.append_assoc,
        List.singleton_append, List.length_cons, Prod.mk.injEq]
      exact ⟨trivial, by omega⟩

/-- Closed form of `merge_validated_observatories`: the written list is the
sorted concatenation of the existing entries with the filtered new ones;
`total_count` counts that list and `new_count` the filtered entries. -/
theorem merge_spec (existing new_observatories : List VEntry) :
    merge_validated_observatories existing new_observatories =
      (sortByName (existing ++
        dedupeNewFilter (existing.map _make_dedupe_key) new_observatories),
       existing.length +
        (dedupeNewFilter (existing.map _make_dedupe_key) new_observatories).length,
       (dedupeNewFilter (existing.map _make_dedupe_key) new_observatories).length) := by
  unfold merge_validated_observatories
  rw [mergeLoop_spec]
  dsimp only
  rw [Nat.zero_add, (sortByName_perm _).length_eq, List.length_append]

/-- The filtered new entries form a subsequence of the new list. -/
theorem dedupeNewFilter_sublist (l : List VEntry) :
    ∀ seen, (dedupeNewFilter seen l).Sublist l := by
  induction l with
  | nil => intro seen; simp [dedupeNewFilter]
  | cons o rest ih =>
    intro seen
    unfold dedupeNewFilter
    by_cases h : _make_dedupe_key o ∈ seen
    · simp only [h, if_true]
      exact (ih seen).trans (List.sublist_cons_self o rest)
    · simp only [h, if_false]
      exact (ih _).cons₂ o

/-- Nothing passes the filter once every key is already seen. -/
theorem dedupeNewFilter_eq_nil (l : List VEntry) :
    ∀ seen, (∀ o ∈ l, _make_dedupe_key o ∈ seen) → dedupeNewFilter seen l = [] := by
  induction l with
  | nil => intro seen _; rfl
  | cons o rest ih =>
    intro seen h
    unfold dedupeNewFilter
    rw [if_pos (h o (List.mem_cons_self o rest))]
    exact ih seen (fun x hx => h x (List.mem_cons_of_mem o hx))

/-- After one filtering pass, the key of every input entry is accounted
for: it was already seen, or it belongs to a kept entry. -/
theorem dedupeNewFilter_keys (l : List VEntry) :
    ∀ seen o, o ∈ l → _make_dedupe_key o ∈ seen ∨
      _make_dedupe_key o ∈ (dedupeNewFilter seen l).map _make_dedupe_key := by
  induction l with
  | nil => intro seen o ho; cases ho
  | cons h rest ih =>
    intro seen o ho
    unfold dedupeNewFilter
    by_cases hk : _make_dedupe_key h ∈ seen
    · rw [if_pos hk]
      rcases List.mem_cons.mp ho with rfl | ho'
      · exact Or.inl hk
      · exact ih seen o ho'
    · rw [if_neg hk]
      rcases List.mem_cons.mp ho with rfl | ho'
      · exact Or.inr (by simp)
      · rcases ih (_make_dedupe_key h :: seen) o ho' with hin | hin
        · rcases List.mem_cons.mp hin with heq | hseen
          · exact Or.inr (by simp [heq])
          · exact Or.inl hseen
        · exact Or.inr (by simp [hin])

/-! ### Claim C2 -/

/-- Dedupe key as the claim words it — coordinates ROUNDED (Python
`round`) to 3 decimals — stated only to compare against the source's
`_make_dedupe_key`, which truncates. -/
def dedupeKeyClaimRound (o : VEntry) : Q × Q × String :=
  (qroundDec o.latitude 3, qroundDec o.longitude 3, _normalize_name o.name)

/-- Existing store for the C2 counterexample: one entry at latitude 0.001. -/
def c2Existing : List VEntry := [⟨"alpha site", ⟨1, 1000⟩, qInt 0, none⟩]

/-- New entry at latitude 0.0019: its ROUNDED key (0.002) is unseen, but
its TRUNCATED key (0.001) collides with the existing entry. -/
def c2New : VEntry := ⟨"alpha site", ⟨19, 10000⟩, qInt 0, none⟩

/-- C2, counterexample: the claim says the dedupe key rounds the
coordinates to 3 decimals and that an entry is appended iff that key is
unseen.  For the entry at latitude 0.0019 the rounded key (0.002) is not
present in the store, yet `merge_validated_observatories` appends nothing
(`new_count = 0`, list unchanged), because the code truncates
(`int(val * 1000) / 1000`) instead of rounding. -/
theorem C2_counterexample :
    dedupeKeyClaimRound c2New ∉ c2Existing.map dedupeKeyClaimRound ∧
    (merge_validated_observatories c2Existing [c2New]).2.2 = 0 ∧
    (merge_validated_observatories c2Existing [c2New]).1 = c2Existing := by
  decide

/-- C2, amended: the deduplication key is
`(truncate(lat, 3), truncate(lon, 3), normalized_name)` where truncation
is toward zero (`int(val * 1000) / 1000`), not rounding, and the
normalization lowercases, strips non-alphanumeric characters and collapses
whitespace; an entry is appended if and only if its key is neither among
the existing entries' keys nor among the keys of entries appended earlier
in the same call — `dedupeNewFilter` states exactly that membership test,
and `merge_validated_observatories` appends exactly its output. -/
theorem C2_amended (existing new_observatories : List VEntry) :
    merge_validated_observatories existing new_observatories =
      (sortByName (existing ++
        dedupeNewFilter (existing.map _make_dedupe_key) new_observatories),
       existing.length +
        (dedupeNewFilter (existing.map _make_dedupe_key) new_observatories).length,
       (dedupeNewFilter (existing.map _make_dedupe_key) new_observatories).length) :=
  merge_spec existing new_observatories

/-! ### Claim C5 -/

/-- C5: `merge_validated_observatories` is idempotent — merging the same
list a second time into the store written by the first call appends
nothing (`new_count = 0`) and leaves `total_count` unchanged. -/
theorem C5_confirmed (existing new_observatories : List VEntry) :
    (merge_validated_observatories
      (merge_validated_observatories existing new_observatories).1
      new_observatories).2.2 = 0 ∧
    (merge_validated_observatories
      (merge_validated_observatories existing new_observatories).1
      new_observatories).2.1 =
      (merge_validated_observatories existing new_observatories).2.1 := by
  rw [merge_spec existing new_observatories]
  dsimp only
  set f0 := dedupeNewFilter (existing.map _make_dedupe_key) new_observatories with hf0
  set m1 := sortByName (existing ++ f0) with hm1
  have hall : ∀ o ∈ new_observatories,
      _make_dedupe_key o ∈ m1.map _make_dedupe_key := by
    intro o ho
    have hperm : (m1.map _make_dedupe_key).Perm
        ((existing ++ f0).map _make_dedupe_key) :=
      (sortByName_perm (existing ++ f0)).map _make_dedupe_key
    rw [hperm.mem_iff, List.map_append, List.mem_append]
    rcases dedupeNewFilter_keys new_observatories (existing.map _make_dedupe_key) o ho with
      hin | hin
    · exact Or.inl hin
    · exact Or.inr hin
  have hnil : dedupeNewFilter (m1.map _make_dedupe_key) new_observatories = [] :=
    dedupeNewFilter_eq_nil new_observatories _ hall
  rw [merge_spec m1 new_observatories, hnil]
  simp only [List.length_nil, Nat.add_zero, true_and]
  rw [hm1, (sortByName_perm _).length_eq, List.length_append]

/-! ### Claim C8 -/

/-- C8: the merge never removes or modifies existing records — the list it
writes is a permutation of the existing entries followed by a subsequence
of the new list (it only appends new entries and re-sorts). -/
theorem C8_confirmed (existing new_observatories : List VEntry) :
    ∃ appended : List VEntry, appended.Sublist new_observatories ∧
      (merge_validated_observatories existing new_observatories).1.Perm
        (existing ++ appended) := by
  refine ⟨dedupeNewFilter (existing.map _make_dedupe_key) new_observatories,
    dedupeNewFilter_sublist new_observatories _, ?_⟩
  rw [merge_spec existing new_observatories]
  exact sortByName_perm _

/-! ### Helper lemmas about the download rate-limit machinery -/

/-- Trigger counting distributes over trace concatenation. -/
theorem triggerCount_append (a b : List DlEvent) :
    triggerCount (a ++ b) = triggerCount a + triggerCount b :=
  List.countP_append _ a b

/-- Waiting out a cooldown never triggers one. -/
theorem checkCooldown_no_trigger (s : RateLimitState) :
    triggerCount (_check_global_cooldown s).2 = 0 := by
  unfold _check_global_cooldown
  split <;> simp [triggerCount]

/-- From attempt 1 onward the retry loop never triggers the global
cooldown: only the `attempt == 0` branch calls
`_trigger_global_cooldown`. -/
theorem dlLoop_no_trigger (resp : Nat → HttpAttempt) (mr : Nat) :
    ∀ fuel attempt s, attempt ≠ 0 →
      triggerCount (dlLoop resp mr attempt fuel s).2.2 = 0 := by
  intro fuel
  induction fuel with
  | zero => intro attempt s _; simp [dlLoop, triggerCount]
  | succ f ih =>
    intro attempt s ha
    unfold dlLoop
    cases resp attempt with
    | success body => simp [triggerCount]
    | requestError => simp [triggerCount]
    | httpError status =>
      by_cases h429 : status = 429
      · simp only [h429, if_true, if_neg ha]
        by_cases hlt : attempt < mr
        · simp only [hlt, if_true]
          have := ih (attempt + 1) { s with now := s.now + 30 * (attempt + 1) }
            (Nat.succ_ne_zero attempt)
          simp [triggerCount, List.countP_cons] at this ⊢
          exact this
        · simp [hlt, triggerCount]
      · simp [h429, triggerCount]

/-- One `download_image` call triggers the global cooldown exactly when
its first attempt observes a 429 — independently of the incoming
rate-limit state, in particular of any 429 recorded earlier. -/
theorem download_image_trigger (resp : Nat → HttpAttempt) (mr : Nat)
    (s : RateLimitState) :
    triggerCount (download_image resp mr s).2.2 =
      if firstAttempt429 resp then 1 else 0 := by
  unfold download_image
  dsimp only
  rw [triggerCount_append, checkCooldown_no_trigger, Nat.zero_add]
  unfold dlLoop
  unfold firstAttempt429
  cases h0 : resp 0 with
  | success body => simp [triggerCount]
  | requestError => simp [triggerCount]
  | httpError status =>
    by_cases h429 : status = 429
    · simp only [h429, if_true, if_pos rfl, beq_self_eq_true, if_true]
      rw [triggerCount_append]
      rw [dlLoop_no_trigger resp mr mr (0 + 1)
        (_trigger_global_cooldown (_check_global_cooldown s).1).1 (by omega)]
      simp [_trigger_global_cooldown, triggerCount]
    · simp only [h429, if_false, triggerCount, List.countP_nil]
      simp [h429]

/-- Across a whole sequence of `download_image` calls, the number of
global-cooldown triggers equals the number of calls whose first attempt
saw a 429. -/
theorem downloadCalls_trigger (mr : Nat) :
    ∀ (calls : List (Nat → HttpAttempt)) (s : RateLimitState),
      triggerCount (downloadCalls calls mr s).2 = calls.countP firstAttempt429 := by
  intro calls
  induction calls with
  | nil => intro s; simp [downloadCalls, triggerCount]
  | cons c rest ih =>
    intro s
    unfold downloadCalls
    dsimp only
    rw [triggerCount_append, download_image_trigger, ih]
    rw [List.countP_cons]
    by_cases hc : firstAttempt429 c = true
    · simp only [hc, if_true]
      omega
    · simp only [hc, if_false]
      omega

/-! ### Claim C3 -/

/-- A call whose first attempt is rate limited and whose retry succeeds. -/
def c3Resp : Nat → HttpAttempt :=
  fun attempt => if attempt = 0 then .httpError 429 else .success "img"

/-- C3, counterexample: the claim says only the first 429 observed in the
whole process triggers the 180-second global cooldown.  Running two
`download_image` calls in sequence from a fresh process state, each
receiving a 429 on its first attempt, produces TWO `triggerCooldown`
events: the second call's 429 — a subsequent 429 in the process — triggers
the global cooldown again, because the `attempt == 0` test is per call,
not per process. -/
theorem C3_counterexample :
    (downloadCalls [c3Resp, c3Resp] 3 initialRateLimitState).2 =
      [DlEvent.triggerCooldown, DlEvent.triggerCooldown] := by
  decide

/-- C3, amended: within each `download_image` call, a 429 on the first
attempt (attempt 0) triggers the 180-second global cooldown — regardless
of any 429 observed earlier in the process — and 429s on later attempts of
the same call only cause bounded linear backoff; hence across any sequence
of calls the cooldown fires exactly once per call whose first attempt sees
a 429. -/
theorem C3_amended (calls : List (Nat → HttpAttempt)) (max_retries : Nat)
    (s : RateLimitState) :
    triggerCount (downloadCalls calls max_retries s).2 =
      calls.countP firstAttempt429 :=
  downloadCalls_trigger max_retries calls s

/-! ### Claim C4 -/

/-- Appending distinct dash-separated suffixes (or none, when empty) to
the same base yields distinct strings. -/
theorem slugSuffix_inj (b w1 w2 : List Char) (h : w1 ≠ w2) :
    (if w1.isEmpty then String.mk b else String.mk (b ++ ('-' :: w1))) ≠
    (if w2.isEmpty then String.mk b else String.mk (b ++ ('-' :: w2))) := by
  intro he
  apply h
  have hd := congrArg String.data he
  rw [apply_ite String.data, apply_ite String.data] at hd
  dsimp only at hd
  by_cases h1 : w1.isEmpty = true
  · by_cases h2 : w2.isEmpty = true
    · rw [List.isEmpty_iff] at h1 h2
      rw [h1, h2]
    · rw [if_pos h1, if_neg h2] at hd
      have hlen := congrArg List.length hd
      rw [List.length_append, List.length_cons] at hlen
      omega
  · by_cases h2 : w2.isEmpty = true
    · rw [if_neg h1, if_pos h2] at hd
      have hlen := congrArg List.length hd
      rw [List.length_append, List.length_cons] at hlen
      omega
    · rw [if_neg h1, if_neg h2] at hd
      have htail := List.append_cancel_left hd
      rw [List.cons.injEq] at htail
      exact htail.2

/-- First observatory of the C4 counterexample: wikidata id `Q1`. -/
def c4ObsA : Observatory :=
  ⟨"Q1", "Royal Observatory", qInt 0, qInt 0, none, "UK", none, none, none, ""⟩

/-- Second observatory: same name, DIFFERENT wikidata id `q1`, which
lowercases to the same suffix. -/
def c4ObsB : Observatory :=
  ⟨"q1", "Royal Observatory", qInt 0, qInt 0, none, "UK", none, none, none, ""⟩

/-- Third observatory, used by the witness: wikidata id `Q2`. -/
def c4ObsC : Observatory :=
  ⟨"Q2", "Royal Observatory", qInt 0, qInt 0, none, "UK", none, none, none, ""⟩

/-- C4, counterexample: the claim says identical names with different
wikidata_ids always give different slugs.  `Q1` and `q1` are different
wikidata_ids, yet both slugs are `royal-observatory-q1`, because the
suffix is the LOWERCASED id. -/
theorem C4_counterexample :
    c4ObsA.name = c4ObsB.name ∧ c4ObsA.wikidata_id ≠ c4ObsB.wikidata_id ∧
    c4ObsA.slug = c4ObsB.slug := by
  decide

/-- C4, amended: `Observatory.slug` is a deterministic pure function of
(name, wikidata_id); and for two observatories with identical names whose
wikidata_ids differ even after lowercasing, the slugs are different. -/
theorem C4_amended (o1 o2 : Observatory) (hname : o1.name = o2.name) :
    (o1.wikidata_id = o2.wikidata_id → o1.slug = o2.slug) ∧
    (lowerStr o1.wikidata_id ≠ lowerStr o2.wikidata_id → o1.slug ≠ o2.slug) := by
  constructor
  · intro hid
    unfold Observatory.slug observatorySlug
    rw [hname, hid]
  · intro hlow
    have h12 : lowerChars o1.wikidata_id.data ≠ lowerChars o2.wikidata_id.data := by
      intro h
      exact hlow (congrArg String.mk h)
    show o1.slug ≠ o2.slug
    unfold Observatory.slug observatorySlug
    rw [hname]
    exact slugSuffix_inj _ _ _ h12

/-- Witness for the amended C4 at concrete observatories `Q1` / `Q2`. -/
theorem C4_amended_witness :
    lowerStr c4ObsA.wikidata_id ≠ lowerStr c4ObsC.wikidata_id ∧
    c4ObsA.slug ≠ c4ObsC.slug :=
  ⟨by decide, (C4_amended c4ObsA c4ObsC rfl).2 (by decide)⟩

/-! ### Claim C9 -/

/-- C9: for every elevation strictly above the 9000 threshold whose
feet-to-meters conversion lands in the plausible range,
`normalize_elevation` returns the converted value (the code rounds it to
one decimal) with note `converted_from_feet`. -/
theorem C9_confirmed (e : Q) (name : String)
    (h1 : qlt FEET_THRESHOLD e = true)
    (h2 : qle MIN_VALID_ELEVATION (qmul e FEET_TO_METERS) = true)
    (h3 : qle (qmul e FEET_TO_METERS) MAX_VALID_ELEVATION = true) :
    normalize_elevation (some e) name =
      (some (qroundDec (qmul e FEET_TO_METERS) 1), "converted_from_feet") := by
  have hle : qle e MAX_VALID_ELEVATION = false := by
    simp only [qlt, FEET_THRESHOLD, qInt, decide_eq_true_eq] at h1
    simp only [qle, MAX_VALID_ELEVATION, qInt, decide_eq_false_iff_not, not_le]
    simpa using h1
  unfold normalize_elevation
  dsimp only
  rw [hle, h1, h2, h3]
  simp

/-- Witness for C9 at the spec's example input 29029 ft (Everest): the
result is 8848.0 m, inside [8848, 8849], with the conversion note. -/
theorem C9_confirmed_witness :
    qlt FEET_THRESHOLD (qInt 29029) = true ∧
    qle MIN_VALID_ELEVATION (qmul (qInt 29029) FEET_TO_METERS) = true ∧
    qle (qmul (qInt 29029) FEET_TO_METERS) MAX_VALID_ELEVATION = true ∧
    normalize_elevation (some (qInt 29029)) "Everest Obs" =
      (some (qroundDec (qmul (qInt 29029) FEET_TO_METERS) 1), "converted_from_feet") ∧
    qle (qInt 8848) (qroundDec (qmul (qInt 29029) FEET_TO_METERS) 1) = true ∧
    qle (qroundDec (qmul (qInt 29029) FEET_TO_METERS) 1) (qInt 8849) = true :=
  ⟨by decide, by decide, by decide,
   C9_confirmed (qInt 29029) "Everest Obs" (by decide) (by decide) (by decide),
   by decide, by decide⟩

/-! ### Claim C7 -/

/-- C7: when exactly the middle entry of a three-entry `discovered.json`
collides (by 2-decimal rounded coordinates) with the existing output store
and the outer two entries collide neither with the store nor with each
other, `run_dedupe` drops exactly that middle entry, keeps the other two
in order, and the two survivors are what is written back. -/
theorem C7_confirmed (A B C : DEntry) (existing : List VEntry)
    (hB : dKey2 B ∈ existing.map vKey2)
    (hA : dKey2 A ∉ existing.map vKey2)
    (hC : dKey2 C ∉ existing.map vKey2)
    (hAC : dKey2 A ≠ dKey2 C) :
    run_dedupe [A, B, C] existing = ([A, C], [B.name]) := by
  unfold run_dedupe
  dsimp only
  unfold dedupeLoop
  rw [if_neg hA, if_neg (by simp)]
  unfold dedupeLoop
  rw [if_pos hB]
  unfold dedupeLoop
  rw [if_neg hC, if_neg (by simp [List.mem_singleton]; exact fun h => hAC h.symm)]
  unfold dedupeLoop
  simp

/-- Concrete three-entry scenario for the C7 witness: `Beta` at
(10.551, 3) collides with the stored entry at (10.55, 3) after rounding to
2 decimals; `Alpha` and `Gamma` survive. -/
def c7A : DEntry := ⟨"Q10", "alpha-q10", "Alpha", qInt 1, qInt 2, none⟩

/-- The colliding middle entry of the C7 scenario. -/
def c7B : DEntry := ⟨"Q11", "beta-q11", "Beta", ⟨10551, 1000⟩, qInt 3, none⟩

/-- The third entry of the C7 scenario. -/
def c7C : DEntry := ⟨"Q12", "gamma-q12", "Gamma", qInt 5, qInt 6, none⟩

/-- The existing validated store of the C7 scenario. -/
def c7Existing : List VEntry := [⟨"Old Beta", ⟨1055, 100⟩, qInt 3, none⟩]

/-- Witness for C7 on the concrete scenario. -/
theorem C7_confirmed_witness :
    dKey2 c7B ∈ c7Existing.map vKey2 ∧
    dKey2 c7A ∉ c7Existing.map vKey2 ∧
    dKey2 c7C ∉ c7Existing.map vKey2 ∧
    dKey2 c7A ≠ dKey2 c7C ∧
    run_dedupe [c7A, c7B, c7C] c7Existing = ([c7A, c7C], [c7B.name]) :=
  ⟨by decide, by decide, by decide, by decide,
   C7_confirmed c7A c7B c7C c7Existing (by decide) (by decide) (by decide) (by decide)⟩

/-! ### Helper lemmas about `normalize_checkpoint` -/

/-- Mapping over an `Except` does not change whether it is a
`ValueError`. -/
theorem isValueError_map {α β : Type} (f : α → β) (x : Except PyErr α) :
    isValueError (x.map f) = isValueError x := by
  cases x with
  | ok a => rfl
  | error e => cases e <;> rfl

/-- Mapping over an `Except` does not change success. -/
theorem isOk_map {α β : Type} (f : α → β) (x : Except PyErr α) :
    (x.map f).isOk = x.isOk := by
  cases x with
  | ok a => rfl
  | error e => cases e <;> rfl

/-- The results-branch loop can only raise `AttributeError`, never the
`ValueError` of the shape check. -/
theorem resultsLoop_not_valueError :
    ∀ (items : JArr) (v w r : JObj), isValueError (resultsLoop v w r items) = false
  | .nil, _, _, _ => rfl
  | .cons item rest, v, w, r => by
    unfold resultsLoop
    cases item with
    | obj it =>
      dsimp only
      by_cases hs : truthy (pyGet it "slug") = true
      · rw [if_pos hs]
        cases htm : pyGetD it "type_metadata" (.obj .nil) <;>
          first
            | exact resultsLoop_not_valueError rest _ _ _
            | rfl
      · rw [if_neg hs]
        exact resultsLoop_not_valueError rest _ _ _
    | null => rfl
    | bool b => rfl
    | num m => rfl
    | str s => rfl
    | arr a => rfl

/-- The array-branch loop can only raise `AttributeError`. -/
theorem arrayLoop_not_valueError :
    ∀ (items : JArr) (v w r : JObj), isValueError (arrayLoop v w r items) = false
  | .nil, _, _, _ => rfl
  | .cons item rest, v, w, r => by
    unfold arrayLoop
    cases item with
    | obj it =>
      dsimp only
      by_cases hs : truthy (pyGet it "slug") = true
      · rw [if_pos hs]
        cases htm : pyGetD it "type_metadata" (.obj .nil) <;>
          first
            | exact arrayLoop_not_valueError rest _ _ _
            | rfl
      · rw [if_neg hs]
        exact arrayLoop_not_valueError rest _ _ _
    | null => rfl
    | bool b => rfl
    | num m => rfl
    | str s => rfl
    | arr a => rfl

/-- On well-formed items the results-branch loop succeeds. -/
theorem resultsLoop_isOk :
    ∀ (items : JArr) (v w r : JObj), itemsOk items = true →
      (resultsLoop v w r items).isOk = true
  | .nil, _, _, _, _ => rfl
  | .cons item rest, v, w, r, h => by
    cases item with
    | obj it =>
      unfold itemsOk at h
      rw [Bool.and_eq_true] at h
      unfold resultsLoop
      dsimp only
      by_cases hs : truthy (pyGet it "slug") = true
      · rw [if_pos hs]
        cases htm : pyGetD it "type_metadata" (.obj .nil) <;> rw [htm] at h <;>
          first
            | exact resultsLoop_isOk rest _ _ _ h.2
            | simp at h
      · rw [if_neg hs]
        exact resultsLoop_isOk rest _ _ _ h.2
    | null => simp [itemsOk] at h
    | bool b => simp [itemsOk] at h
    | num m => simp [itemsOk] at h
    | str s => simp [itemsOk] at h
    | arr a => simp [itemsOk] at h

/-- On well-formed items the array-branch loop succeeds. -/
theorem arrayLoop_isOk :
    ∀ (items : JArr) (v w r : JObj), itemsOk items = true →
      (arrayLoop v w r items).isOk = true
  | .nil, _, _, _, _ => rfl
  | .cons item rest, v, w, r, h => by
    cases item with
    | obj it =>
      unfold itemsOk at h
      rw [Bool.and_eq_true] at h
      unfold arrayLoop
      dsimp only
      by_cases hs : truthy (pyGet it "slug") = true
      · rw [if_pos hs]
        cases htm : pyGetD it "type_metadata" (.obj .nil) <;> rw [htm] at h <;>
          first
            | exact arrayLoop_isOk rest _ _ _ h.2
            | simp at h
      · rw [if_neg hs]
        exact arrayLoop_isOk rest _ _ _ h.2
    | null => simp [itemsOk] at h
    | bool b => simp [itemsOk] at h
    | num m => simp [itemsOk] at h
    | str s => simp [itemsOk] at h
    | arr a => simp [itemsOk] at h

/-- When the canonical shape misses, `normalize_checkpoint` on a dict
reduces to the results-branch dispatch. -/
theorem normalize_checkpoint_dict_eq (f : JObj) (n : Int)
    (h : isCanonicalShape (.obj f) = false) :
    normalize_checkpoint (.obj f) n =
      (match objGet f "results" with
        | some (.arr items) =>
          (resultsLoop .nil .nil .nil items).map
            (fun t => { batch_num := n
                        validated := .obj t.1
                        websites_found := .obj t.2.1
                        rejection_notes := .obj t.2.2 })
        | _ => .error .valueError) := by
  cases hv : objGet f "validated" with
  | none => simp only [normalize_checkpoint, hv]
  | some v =>
    cases v with
    | obj vd => simp [isCanonicalShape, hv] at h
    | null => simp only [normalize_checkpoint, hv]
    | bool b => simp only [normalize_checkpoint, hv]
    | num m => simp only [normalize_checkpoint, hv]
    | str s => simp only [normalize_checkpoint, hv]
    | arr a => simp only [normalize_checkpoint, hv]

/-- When the canonical shape misses, the well-formedness side condition on
a dict reduces to the results-branch item check. -/
theorem shapeItemsOk_dict_eq (f : JObj)
    (h : isCanonicalShape (.obj f) = false) :
    shapeItemsOk (.obj f) =
      (match objGet f "results" with
        | some (.arr items) => itemsOk items
        | _ => true) := by
  cases hv : objGet f "validated" with
  | none => simp only [shapeItemsOk, hv]
  | some v =>
    cases v with
    | obj vd => simp [isCanonicalShape, hv] at h
    | null => simp only [shapeItemsOk, hv]
    | bool b => simp only [shapeItemsOk, hv]
    | num m => simp only [shapeItemsOk, hv]
    | str s => simp only [shapeItemsOk, hv]
    | arr a => simp only [shapeItemsOk, hv]

/-- The C6 property for a dict input whose canonical shape misses. -/
theorem c6_dict_fallthrough (f : JObj) (n : Int)
    (hcanon : isCanonicalShape (.obj f) = false) :
    (isValueError (normalize_checkpoint (.obj f) n) = true ↔
      recognizedShape (.obj f) = false) ∧
    (recognizedShape (.obj f) = true → shapeItemsOk (.obj f) = true →
      (normalize_checkpoint (.obj f) n).isOk = true) := by
  have he := normalize_checkpoint_dict_eq f n hcanon
  have hs := shapeItemsOk_dict_eq f hcanon
  constructor
  · rw [he]
    cases hr : objGet f "results" with
    | some w =>
      cases w with
      | arr items =>
        simp [isValueError_map, resultsLoop_not_valueError, recognizedShape,
          isResultsShape, isArrayShape, hcanon, hr]
      | null => simp [isValueError, recognizedShape, isResultsShape, isArrayShape, hcanon, hr]
      | bool b => simp [isValueError, recognizedShape, isResultsShape, isArrayShape, hcanon, hr]
      | num m => simp [isValueError, recognizedShape, isResultsShape, isArrayShape, hcanon, hr]
      | str s => simp [isValueError, recognizedShape, isResultsShape, isArrayShape, hcanon, hr]
      | obj o => simp [isValueError, recognizedShape, isResultsShape, isArrayShape, hcanon, hr]
    | none => simp [isValueError, recognizedShape, isResultsShape, isArrayShape, hcanon, hr]
  · intro hrec hitems
    rw [he]
    rw [hs] at hitems
    cases hr : objGet f "results" with
    | some w =>
      cases w with
      | arr items =>
        dsimp only
        rw [isOk_map]
        simp only [hr] at hitems
        exact resultsLoop_isOk items _ _ _ hitems
      | null => simp [recognizedShape, isResultsShape, isArrayShape, hcanon, hr] at hrec
      | bool b => simp [recognizedShape, isResultsShape, isArrayShape, hcanon, hr] at hrec
      | num m => simp [recognizedShape, isResultsShape, isArrayShape, hcanon, hr] at hrec
      | str s => simp [recognizedShape, isResultsShape, isArrayShape, hcanon, hr] at hrec
      | obj o => simp [recognizedShape, isResultsShape, isArrayShape, hcanon, hr] at hrec
    | none => simp [recognizedShape, isResultsShape, isArrayShape, hcanon, hr] at hrec

/-! ### Claim C6 -/

/-- A top-level list whose element is a bare string, not a dict. -/
def c6BadList : JVal := .arr (.cons (.str "x") .nil)

/-- C6, counterexample: the claim says every input matching one of the
three recognized shapes returns a canonical dict without raising.  The
top-level list `["x"]` matches the third shape, yet `normalize_checkpoint`
raises — an `AttributeError` from `item.get("slug")` on the string item —
instead of returning. -/
theorem C6_counterexample :
    isArrayShape c6BadList = true ∧ recognizedShape c6BadList = true ∧
    isAttributeError (normalize_checkpoint c6BadList 1) = true ∧
    (normalize_checkpoint c6BadList 1).isOk = false := by
  decide

/-- C6, amended: `normalize_checkpoint` raises `ValueError` if and only if
its input matches none of the three recognized shapes; and an input
matching one of the shapes returns a canonical dict without raising
provided its list items are all dicts whose `type_metadata`, when present,
is a dict (otherwise the list branches raise `AttributeError`, not
`ValueError`). -/
theorem C6_amended (data : JVal) (n : Int) :
    (isValueError (normalize_checkpoint data n) = true ↔ recognizedShape data = false) ∧
    (recognizedShape data = true → shapeItemsOk data = true →
      (normalize_checkpoint data n).isOk = true) := by
  cases data with
  | obj f =>
    cases hv : objGet f "validated" with
    | some v =>
      cases v with
      | obj vd =>
        constructor
        · simp [normalize_checkpoint, hv, isValueError, recognizedShape, isCanonicalShape]
        · intro _ _
          simp [normalize_checkpoint, hv, Except.isOk, Except.toBool]
      | null =>
        exact c6_dict_fallthrough f n (by simp [isCanonicalShape, hv])
      | bool b =>
        exact c6_dict_fallthrough f n (by simp [isCanonicalShape, hv])
      | num m =>
        exact c6_dict_fallthrough f n (by simp [isCanonicalShape, hv])
      | str s =>
        exact c6_dict_fallthrough f n (by simp [isCanonicalShape, hv])
      | arr a =>
        exact c6_dict_fallthrough f n (by simp [isCanonicalShape, hv])
    | none =>
      exact c6_dict_fallthrough f n (by simp [isCanonicalShape, hv])
  | arr items =>
    constructor
    · rw [show normalize_checkpoint (.arr items) n =
        (arrayLoop .nil .nil .nil items).map _ from rfl]
      rw [isValueError_map, arrayLoop_not_valueError]
      simp [recognizedShape, isArrayShape]
    · intro _ hitems
      rw [show normalize_checkpoint (.arr items) n =
        (arrayLoop .nil .nil .nil items).map _ from rfl]
      rw [isOk_map]
      exact arrayLoop_isOk items _ _ _ hitems
  | null =>
    refine ⟨by simp [normalize_checkpoint, isValueError, recognizedShape,
      isCanonicalShape, isResultsShape, isArrayShape], ?_⟩
    intro hrec _
    simp [recognizedShape, isCanonicalShape, isResultsShape, isArrayShape] at hrec
  | bool b =>
    refine ⟨by simp [normalize_checkpoint, isValueError, recognizedShape,
      isCanonicalShape, isResultsShape, isArrayShape], ?_⟩
    intro hrec _
    simp [recognizedShape, isCanonicalShape, isResultsShape, isArrayShape] at hrec
  | num m =>
    refine ⟨by simp [normalize_checkpoint, isValueError, recognizedShape,
      isCanonicalShape, isResultsShape, isArrayShape], ?_⟩
    intro hrec _
    simp [recognizedShape, isCanonicalShape, isResultsShape, isArrayShape] at hrec
  | str s =>
    refine ⟨by simp [normalize_checkpoint, isValueError, recognizedShape,
      isCanonicalShape, isResultsShape, isArrayShape], ?_⟩
    intro hrec _
    simp [recognizedShape, isCanonicalShape, isResultsShape, isArrayShape] at hrec

/-- A results-shape checkpoint used by the C6 and C10 witnesses: it even
carries its own (wrong) `batch_num`. -/
def c6ResultsData : JVal :=
  .obj (.cons (.str "batch_num") (.num 99)
    (.cons (.str "results")
      (.arr (.cons
        (.obj (.cons (.str "slug") (.str "alpha-q1")
          (.cons (.str "image_url") (.str "https://img/a.jpg") .nil)))
        .nil))
      .nil))

/-- Witness for the amended C6: the concrete results-shape input is
recognized, well-formed, and normalizes without raising. -/
theorem C6_amended_witness :
    recognizedShape c6ResultsData = true ∧ shapeItemsOk c6ResultsData = true ∧
    (normalize_checkpoint c6ResultsData 5).isOk = true :=
  ⟨by decide, by decide, (C6_amended c6ResultsData 5).2 (by decide) (by decide)⟩

/-- C10 for a dict whose canonical shape misses: the results branch also
stamps `expected_batch_num`. -/
theorem c10_results_case (f : JObj) (n : Int) (out : Checkpoint)
    (hcanon : isCanonicalShape (.obj f) = false)
    (h : normalize_checkpoint (.obj f) n = .ok out) : out.batch_num = n := by
  rw [normalize_checkpoint_dict_eq f n hcanon] at h
  cases hr : objGet f "results" with
  | some w =>
    cases w with
    | arr items =>
      simp only [hr] at h
      cases hl : resultsLoop .nil .nil .nil items with
      | ok t =>
        rw [hl] at h
        simp only [Except.map] at h
        injection h with h2
        rw [← h2]
      | error e =>
        rw [hl] at h
        simp only [Except.map] at h
        cases h
    | null => simp [hr] at h
    | bool b => simp [hr] at h
    | num m => simp [hr] at h
    | str s => simp [hr] at h
    | obj o => simp [hr] at h
  | none => simp [hr] at h

/-! ### Claim C10 -/

/-- C10: whatever recognized shape the input has — and whatever
`batch_num` the input itself carries — the canonical dict returned by
`normalize_checkpoint` has `batch_num` equal to the `expected_batch_num`
argument; the input's own batch number is discarded. -/
theorem C10_confirmed (data : JVal) (n : Int) (out : Checkpoint)
    (h : normalize_checkpoint data n = .ok out) : out.batch_num = n := by
  cases data with
  | obj f =>
    cases hv : objGet f "validated" with
    | some v =>
      cases v with
      | obj vd =>
        simp only [normalize_checkpoint, hv] at h
        injection h with h2
        rw [← h2]
      | null => exact c10_results_case f n out (by simp [isCanonicalShape, hv]) h
      | bool b => exact c10_results_case f n out (by simp [isCanonicalShape, hv]) h
      | num m => exact c10_results_case f n out (by simp [isCanonicalShape, hv]) h
      | str s => exact c10_results_case f n out (by simp [isCanonicalShape, hv]) h
      | arr a => exact c10_results_case f n out (by simp [isCanonicalShape, hv]) h
    | none => exact c10_results_case f n out (by simp [isCanonicalShape, hv]) h
  | arr items =>
    simp only [normalize_checkpoint] at h
    cases hr : arrayLoop .nil .nil .nil items with
    | ok t =>
      rw [hr] at h
      simp only [Except.map] at h
      injection h with h2
      rw [← h2]
    | error e =>
      rw [hr] at h
      simp only [Except.map] at h
      cases h
  | null => cases h
  | bool b => cases h
  | num m => cases h
  | str s => cases h

/-- The canonical output of the C10 witness input under
`expected_batch_num = 7`. -/
def c10Out : Checkpoint :=
  { batch_num := 7
    validated := .obj (.cons (.str "alpha-q1") (.str "https://img/a.jpg") .nil)
    websites_found := .obj .nil
    rejection_notes := .obj .nil }

/-- Witness for C10: the input carries `batch_num = 99`, the caller passes
7, and the output's `batch_num` is 7. -/
theorem C10_confirmed_witness :
    normalize_checkpoint c6ResultsData 7 = .ok c10Out ∧ c10Out.batch_num = 7 :=
  ⟨rfl, C10_confirmed c6ResultsData 7 c10Out rfl⟩

/-! ### Claim C1 -/

/-- A 1095-byte page (content length > 1000) whose first 5000 lowercased
characters contain exactly one soft-404 pattern hit — a single incidental
`404` in running text — and whose title is clean. -/
def c1Body : String :=
  String.mk (s2c "<html><head><title>acme mountain observatory</title></head><body>" ++
    List.replicate 940 'z' ++
    s2c " call us today. we have helped 404 observatories measure the sky since 1901.</body></html>")

set_option maxRecDepth 100000 in
/-- C1, counterexample: the claim says such a page is NOT flagged
(valid = True, is_soft_404 = False).  The code flags it: after the single
regex hit, the check `len(matches) >= 2 or '404' in content` succeeds on
the literal substring `404`, so the result is valid = False with
is_soft_404 = True. -/
theorem C1_counterexample :
    (validate_website_url "https://acme.org"
      (.success 200 "https://acme.org/" c1Body)).status_code = some 200 ∧
    1000 < (validate_website_url "https://acme.org"
      (.success 200 "https://acme.org/" c1Body)).content_length ∧
    soft404FindAll ((lowerChars c1Body.data).take 5000) = [s2c "404"] ∧
    (findTitle (lowerChars c1Body.data)).map soft404Search = some false ∧
    (validate_website_url "https://acme.org"
      (.success 200 "https://acme.org/" c1Body)).valid = false ∧
    (validate_website_url "https://acme.org"
      (.success 200 "https://acme.org/" c1Body)).is_soft_404 = true := by
  decide

/-- C1, amended: for an HTTP 200 response longer than 1000 bytes whose
first 5000 lowercased characters contain a soft-404 pattern hit AND the
literal substring `404`, `validate_website_url` flags the page:
valid = False with is_soft_404 = True.  In particular one single
incidental occurrence of `404` suffices — the opposite of the claim as
stated. -/
theorem C1_amended (url finalUrl body : String) (hurl : url ≠ "")
    (hlen : 1000 < body.utf8ByteSize)
    (hsearch : soft404Search ((lowerChars body.data).take 5000) = true)
    (hsub : strHasSub (s2c "404") ((lowerChars body.data).take 5000) = true) :
    (validate_website_url url (.success 200 finalUrl body)).valid = false ∧
    (validate_website_url url (.success 200 finalUrl body)).is_soft_404 = true := by
  unfold validate_website_url
  rw [if_neg hurl]
  dsimp only
  rw [if_neg (by norm_num : ¬ ((400 : Nat) ≤ 200))]
  rw [if_neg (by norm_num :
    ¬ ((200 : Nat) = 301 ∨ (200 : Nat) = 302 ∨ (200 : Nat) = 303 ∨
       (200 : Nat) = 307 ∨ (200 : Nat) = 308))]
  rw [if_neg (by
    intro hc
    have h1 := hc.1
    simp only [MIN_CONTENT_LENGTH] at h1
    omega)]
  rw [if_pos ⟨hsearch, Or.inr hsub⟩]
  exact ⟨rfl, rfl⟩

set_option maxRecDepth 100000 in
/-- Witness for the amended C1 at the concrete page `c1Body`. -/
theorem C1_amended_witness :
    ("https://acme.org" ≠ "") ∧
    1000 < c1Body.utf8ByteSize ∧
    soft404Search ((lowerChars c1Body.data).take 5000) = true ∧
    strHasSub (s2c "404") ((lowerChars c1Body.data).take 5000) = true ∧
    ((validate_website_url "https://acme.org"
        (.success 200 "https://acme.org/" c1Body)).valid = false ∧
      (validate_website_url "https://acme.org"
        (.success 200 "https://acme.org/" c1Body)).is_soft_404 = true) :=
  ⟨by decide, by decide, by decide, by decide,
   C1_amended "https://acme.org" "https://acme.org/" c1Body
     (by decide) (by decide) (by decide) (by decide)⟩

end ObservatorySeeder
